import Mathlib

/-
Verification development for the hfs-sysstats plugin.

Embedded source files:
  src/dist/plugin.js      - HFS plugin: router middleware, static file
                            responder (serveFile), metrics snapshot endpoint.
  src/dist/public/main.js - dashboard client: formatBytes, formatUptime,
                            updateCharts (rolling chart window).

Numbers are modelled as rationals.  JavaScript numeric values that may be
undefined or NaN are modelled by the three-valued type JVal below; the
source only ever divides under a truthiness guard on the denominator, so
the JavaScript infinity values never arise in the embedded fragments.
-/

/-- JSON values, as produced by JSON.stringify of the snapshot object. -/
inductive Json where
  | null : Json
  | num (q : ℚ) : Json
  | str (s : String) : Json
  | arr (xs : List Json) : Json
  | obj (fields : List (String × Json)) : Json

/-- Lookup of a key in an object field list (first match wins, as in the
literal objects of the source where keys are distinct). -/
def lookupKey : List (String × Json) → String → Option Json
  | [], _ => none
  | (k, v) :: rest, key => if k.data == key.data then some v else lookupKey rest key

/-- Field access on a JSON object; none on non-objects or missing keys. -/
def Json.get : Json → String → Option Json
  | .obj fs, key => lookupKey fs key
  | _, _ => none

/-- A JavaScript numeric slot: a number, NaN, or undefined (also used for
the null the metrics library reports for absent sensors, which behaves the
same in the expressions the source applies to these slots). -/
inductive JVal where
  | undef : JVal
  | nan : JVal
  | num (q : ℚ) : JVal

/-- Truthiness test of a JavaScript numeric slot: undefined, NaN and 0 are
falsy. -/
def JVal.falsy : JVal → Bool
  | .undef => true
  | .nan => true
  | .num q => q == 0

/-- Models the idiom x || d with a numeric default d (source lines such as
cpu.currentLoad || 0 in plugin.js lines 135-137, 141-144, 161-164, 172). -/
def JVal.orDefault (v : JVal) (d : ℚ) : ℚ :=
  match v with
  | .num q => if q == 0 then d else q
  | _ => d

/-- Models the idiom x || null followed by serialization (plugin.js lines
155 and 157: temp.main || null, temp.max || null).  NaN also serializes to
null under JSON.stringify. -/
def JVal.orNullJson : JVal → Json
  | .num q => if q == 0 then Json.null else Json.num q
  | _ => Json.null

/-- JavaScript division on numeric slots.  Any non-number operand gives
NaN.  The source divides only under a truthiness guard on the denominator,
so the denominator-zero case (JavaScript infinity) is unreachable in the
embedded code; it is mapped to NaN here. -/
def JVal.div : JVal → JVal → JVal
  | .num a, .num b => if b == 0 then .nan else .num (a / b)
  | _, _ => .nan

/-- JavaScript multiplication on numeric slots; non-numbers give NaN. -/
def JVal.mul : JVal → JVal → JVal
  | .num a, .num b => .num (a * b)
  | _, _ => .nan

/-- Serialization of a numeric slot by JSON.stringify: NaN becomes null.
The undefined case also maps to null here; in the source every slot that
reaches serialization is either an || defaulted number or the result of
div/mul, which is a number or NaN, never undefined. -/
def JVal.toJson : JVal → Json
  | .num q => Json.num q
  | _ => Json.null

/-- Models the usage expressions of plugin.js lines 145 and 151:
total ? ((used / total) * 100) : 0. -/
def jsUsage (used total : JVal) : JVal :=
  if total.falsy then .num 0 else (used.div total).mul (.num 100)

/-- Models the idiom s || d for string slots (empty string is falsy), as in
disk[0].fs || Unknown on plugin.js line 152 and lines 160, 167-171. -/
def jsOrStr (v : Option String) (d : String) : String :=
  match v with
  | some s => if s == "" then d else s
  | none => d

/-- Raw reading returned by si.currentLoad(); cpus records the length of
the cpus array when that array is present. -/
structure CpuReading where
  currentLoad : JVal
  currentLoadUser : JVal
  currentLoadSystem : JVal
  cpus : Option ℕ

/-- Raw reading returned by si.mem(). -/
structure MemReading where
  total : JVal
  used : JVal
  free : JVal
  available : JVal

/-- One filesystem entry of the array returned by si.fsSize(). -/
structure DiskFs where
  size : JVal
  used : JVal
  available : JVal
  fs : Option String

/-- Raw reading returned by si.cpuTemperature(). -/
structure TempReading where
  main : JVal
  cores : Option (List ℚ)
  max : JVal

/-- One interface entry of the array returned by si.networkStats(). -/
structure NetIface where
  iface : Option String
  rx_bytes : JVal
  tx_bytes : JVal
  rx_sec : JVal
  tx_sec : JVal

/-- Raw reading returned by si.osInfo(). -/
structure OsReading where
  platform : Option String
  distro : Option String
  release : Option String
  arch : Option String
  hostname : Option String

/-- Raw reading returned by si.time(). -/
structure TimeReading where
  uptime : JVal

/-- The seven readings the endpoint destructures from Promise.all
(plugin.js lines 122-130).  The disk and network arrays are optional to
model the defensive disk && ... and network && ... guards. -/
structure Readings where
  cpu : CpuReading
  mem : MemReading
  disk : Option (List DiskFs)
  temp : TempReading
  network : Option (List NetIface)
  osInfo : OsReading
  time : TimeReading

/-- Number of cores: cpu.cpus?.length || 0 (plugin.js line 138). -/
def cpuCoresCount (c : Option ℕ) : ℚ :=
  ((c.getD 0 : ℕ) : ℚ)

/-- Core temperature list: temp.cores || [] (plugin.js line 156). -/
def coresList (c : Option (List ℚ)) : List ℚ :=
  c.getD []

/-- The disk member of the snapshot (plugin.js lines 147-153): an object
built from the first filesystem entry, or null when the array is absent or
empty. -/
def diskJson : Option (List DiskFs) → Json
  | some (d :: _) => Json.obj [
      ("total", Json.num (d.size.orDefault 0)),
      ("used", Json.num (d.used.orDefault 0)),
      ("available", Json.num (d.available.orDefault 0)),
      ("usage", (jsUsage d.used d.size).toJson),
      ("filesystem", Json.str (jsOrStr d.fs "Unknown"))]
  | _ => Json.null

/-- The network member of the snapshot (plugin.js lines 159-165): an
object built from the first interface entry, or null when the array is
absent or empty. -/
def netJson : Option (List NetIface) → Json
  | some (n :: _) => Json.obj [
      ("interface", Json.str (jsOrStr n.iface "Unknown")),
      ("rx_bytes", Json.num (n.rx_bytes.orDefault 0)),
      ("tx_bytes", Json.num (n.tx_bytes.orDefault 0)),
      ("rx_sec", Json.num (n.rx_sec.orDefault 0)),
      ("tx_sec", Json.num (n.tx_sec.orDefault 0))]
  | _ => Json.null

/-- The snapshot object assembled by the endpoint (plugin.js lines
132-174), as the JSON value JSON.stringify serializes. -/
def snapshotJson (now : ℚ) (r : Readings) : Json :=
  Json.obj [
    ("timestamp", Json.num now),
    ("cpu", Json.obj [
      ("load", Json.num (r.cpu.currentLoad.orDefault 0)),
      ("loadUser", Json.num (r.cpu.currentLoadUser.orDefault 0)),
      ("loadSystem", Json.num (r.cpu.currentLoadSystem.orDefault 0)),
      ("cores", Json.num (cpuCoresCount r.cpu.cpus))]),
    ("memory", Json.obj [
      ("total", Json.num (r.mem.total.orDefault 0)),
      ("used", Json.num (r.mem.used.orDefault 0)),
      ("free", Json.num (r.mem.free.orDefault 0)),
      ("available", Json.num (r.mem.available.orDefault 0)),
      ("usage", (jsUsage r.mem.used r.mem.total).toJson)]),
    ("disk", diskJson r.disk),
    ("temperature", Json.obj [
      ("main", r.temp.main.orNullJson),
      ("cores", Json.arr ((coresList r.temp.cores).map Json.num)),
      ("max", r.temp.max.orNullJson)]),
    ("network", netJson r.network),
    ("system", Json.obj [
      ("platform", Json.str (jsOrStr r.osInfo.platform "Unknown")),
      ("distro", Json.str (jsOrStr r.osInfo.distro "Unknown")),
      ("release", Json.str (jsOrStr r.osInfo.release "Unknown")),
      ("arch", Json.str (jsOrStr r.osInfo.arch "Unknown")),
      ("hostname", Json.str (jsOrStr r.osInfo.hostname "Unknown")),
      ("uptime", Json.num (r.time.uptime.orDefault 0))])]

/-- Tests whether an Except value is a rejection. -/
def isErr {α : Type} : Except String α → Bool
  | .error _ => true
  | .ok _ => false

/-- Message list of a possibly rejected read: empty when it resolved. -/
def errList {α : Type} : Except String α → List String
  | .error e => [e]
  | .ok _ => []

/-- Models Promise.all over the seven metric reads of plugin.js lines
122-130: resolves to the tuple of readings when all resolve, otherwise
rejects; among several rejections the first in array order is kept (the
real Promise.all keeps the first rejection to settle in time). -/
def combineAll (c : Except String CpuReading) (m : Except String MemReading)
    (d : Except String (Option (List DiskFs))) (t : Except String TempReading)
    (n : Except String (Option (List NetIface))) (o : Except String OsReading)
    (u : Except String TimeReading) : Except String Readings := do
  let rc ← c
  let rm ← m
  let rd ← d
  let rt ← t
  let rn ← n
  let ro ← o
  let ru ← u
  return ⟨rc, rm, rd, rt, rn, ro, ru⟩

/-- Messages of all rejected reads among the seven, in array order. -/
def errMsgs7 (c : Except String CpuReading) (m : Except String MemReading)
    (d : Except String (Option (List DiskFs))) (t : Except String TempReading)
    (n : Except String (Option (List NetIface))) (o : Except String OsReading)
    (u : Except String TimeReading) : List String :=
  errList c ++ errList m ++ errList d ++ errList t ++ errList n ++ errList o ++ errList u

/-- Whether any of the seven reads rejected. -/
def isErr7 (c : Except String CpuReading) (m : Except String MemReading)
    (d : Except String (Option (List DiskFs))) (t : Except String TempReading)
    (n : Except String (Option (List NetIface))) (o : Except String OsReading)
    (u : Except String TimeReading) : Bool :=
  isErr c || isErr m || isErr d || isErr t || isErr n || isErr o || isErr u

/-- Character-list version of the startsWith test. -/
def isLeadOf : List Char → List Char → Bool
  | [], _ => true
  | _ :: _, [] => false
  | p :: ps, c :: cs => p == c && isLeadOf ps cs

/-- Models url.startsWith(pre) of JavaScript strings.  The urls and path
constants of the source are ASCII, where code-unit indexing and character
indexing coincide. -/
def jsStartsWith (s pre : String) : Bool :=
  isLeadOf pre.data s.data

/-- Models url.substring(n) for the ASCII strings of the source. -/
def jsSubstring (s : String) (n : ℕ) : String :=
  ⟨s.data.drop n⟩

/-- Splits a character list at a separator. -/
def splitChar (sep : Char) : List Char → List (List Char)
  | [] => [[]]
  | c :: cs =>
    match splitChar sep cs with
    | [] => if c == sep then [[], []] else [[c]]
    | h :: t => if c == sep then [] :: h :: t else (c :: h) :: t

/-- Path segments of a string, separated by slashes. -/
def pathSegs (s : String) : List String :=
  (splitChar '/' s.data).map (fun cs => ⟨cs⟩)

/-- Normalization step of path.posix for absolute paths: empty and dot
segments vanish, a dot-dot segment pops the previous segment (clamped at
the root). -/
def collapseSegs (segs : List String) : List String :=
  segs.foldl (fun acc seg =>
    if seg == "" || seg == "." then acc
    else if seg == ".." then acc.dropLast
    else acc ++ [seg]) []

/-- Renders an absolute path from its segments. -/
def renderAbs (segs : List String) : String :=
  match segs with
  | [] => "/"
  | _ => segs.foldl (fun acc s => acc ++ "/" ++ s) ""

/-- Models path.join(a, b) of the posix path module for an absolute first
argument: concatenation followed by normalization, which resolves dot-dot
segments against the base (this resolution is what makes the raw join
traversable, see the claims on the file branch). -/
def pathJoin (a b : String) : String :=
  renderAbs (collapseSegs (pathSegs (a ++ "/" ++ b)))

/-- Models path.basename: the last slash-separated segment. -/
def basename (p : String) : String :=
  match (pathSegs p).getLast? with
  | some s => s
  | none => ""

/-- Characters after the last dot of a list, none when no dot occurs. -/
def afterLastDot (cs : List Char) : Option (List Char) :=
  cs.foldl (fun acc c => if c == '.' then some [] else acc.map (fun l => l ++ [c])) none

/-- Models path.extname: the suffix of the basename from its last dot,
empty for a dotless name or a leading-dot name with no further dot. -/
def extname (p : String) : String :=
  match (basename p).data with
  | [] => ""
  | c :: rest =>
    if c == '.' then
      match afterLastDot rest with
      | some ext => ⟨'.' :: ext⟩
      | none => ""
    else
      match afterLastDot (c :: rest) with
      | some ext => ⟨'.' :: ext⟩
      | none => ""

/-- The content-type switch of serveFile (plugin.js lines 40-66). -/
def contentTypeFor (ext : String) : String :=
  if ext == ".html" then "text/html; charset=utf-8"
  else if ext == ".css" then "text/css"
  else if ext == ".js" then "application/javascript"
  else if ext == ".json" then "application/json"
  else if ext == ".png" then "image/png"
  else if ext == ".jpg" then "image/jpeg"
  else if ext == ".jpeg" then "image/jpeg"
  else if ext == ".svg" then "image/svg+xml"
  else "text/plain"

/-- State of a path on disk: absent (existsSync false), or present with
the outcome of reading it (readFileSync or the read stream may fail, for
example with EISDIR on a directory or EACCES on a protected file). -/
inductive FileState where
  | absent : FileState
  | present (read : Except String String) : FileState

/-- The disk contents visible to the plugin. -/
def Filesystem : Type := String → FileState

/-- Body of a response: plain text (also file contents) or a JSON value
(the endpoint serializes it with JSON.stringify). -/
inductive RespBody where
  | text (s : String) : RespBody
  | json (j : Json) : RespBody

/-- One write on ctx.res: a writeHead call (status and content type) or a
body write that ends the response. -/
inductive WEvent where
  | head (status : ℕ) (contentType : String) : WEvent
  | body (b : RespBody) : WEvent

/-- Outcome of one middleware or serveFile call: the writes performed on
ctx.res in order, the returned boolean (meaningful when no exception
escaped), and the escaped exception if any. -/
structure MwResult where
  events : List WEvent
  handled : Bool
  exc : Option String

/-- A filesystem on which no present file fails to read. -/
def fsReliable (fs : Filesystem) : Prop :=
  ∀ p e, fs p ≠ FileState.present (Except.error e)

/-- Exactly one complete response: one head write followed by one body
write and nothing else. -/
def isOneResponse : List WEvent → Bool
  | [WEvent.head _ _, WEvent.body _] => true
  | _ => false

/-- The static file responder serveFile (plugin.js lines 27-90).  The
whole body runs in a try/catch.  Faithful behaviors of note:
  - an absent path yields a 404 naming the basename (lines 33-37);
  - writeHead(200) happens before the file is read (lines 69-72);
  - a failing readFileSync then throws into the catch, whose own
    writeHead(500) throws ERR_HTTP_HEADERS_SENT because Node refuses a
    second writeHead on the same response, so the exception escapes
    serveFile with only the 200 head written and the response never
    ended (lines 80, 86-87);
  - for image types the file is piped from a read stream (lines 75-77); a
    stream read failure surfaces asynchronously after serveFile returned,
    leaving the response unended, and is modelled as a lone head write.
Split over fullPathOf (line 30: the provided path, or the default index
document) and ctOf (lines 40-66), with serveFile proper below. -/
def fullPathOf (dirname : String) (filePath : Option String) : String :=
  match filePath with
  | some p => p
  | none => pathJoin (pathJoin dirname "public") "index.html"

/-- The content type serveFile picks for a path. -/
def ctOf (p : String) : String :=
  contentTypeFor (extname p)

/-- The responder itself; see the comment on fullPathOf above. -/
def serveFile (fs : Filesystem) (dirname : String) (filePath : Option String) : MwResult :=
  match fs (fullPathOf dirname filePath) with
  | .absent =>
      ⟨[.head 404 "text/plain",
        .body (.text ("File not found: " ++ basename (fullPathOf dirname filePath)))], true, none⟩
  | .present r =>
      if jsStartsWith (ctOf (fullPathOf dirname filePath)) "image/" then
        match r with
        | .ok content =>
            ⟨[.head 200 (ctOf (fullPathOf dirname filePath)), .body (.text content)], true, none⟩
        | .error _ => ⟨[.head 200 (ctOf (fullPathOf dirname filePath))], true, none⟩
      else
        match r with
        | .ok content =>
            ⟨[.head 200 (ctOf (fullPathOf dirname filePath)), .body (.text content)], true, none⟩
        | .error _ =>
            ⟨[.head 200 (ctOf (fullPathOf dirname filePath))], false, some "ERR_HTTP_HEADERS_SENT"⟩

/-- Truthiness of the username returned by getCurrentUsername: undefined
and the empty string are falsy. -/
def jsTruthyStr : Option String → Bool
  | none => false
  | some s => s != ""

/-- The JSON error envelope of the catch branch (plugin.js line 183). -/
def errorEnvelope (msg : String) : Json :=
  Json.obj [("error", Json.str "Failed to retrieve system information"),
            ("details", Json.str msg)]

/-- The router middleware (plugin.js lines 100-203).  Parameters:
  - fs, dirname: the disk and the plugin directory (__dirname);
  - allowPublicAccess: the config flag read on line 113;
  - username: the result of getCurrentUsername(ctx) on line 110;
  - metrics: the settled outcome of the Promise.all of line 122;
  - now: Date.now() at assembly time;
  - url: ctx.req.url.
Branches in source order: prefix test (line 105), authentication deferral
(lines 110-117), the api endpoint (lines 120-186), the root document
(lines 189-191), the file branch (lines 194-200), and the final return
true of line 202 which writes nothing. -/
def middleware (fs : Filesystem) (dirname : String) (allowPublicAccess : Bool)
    (username : Option String) (metrics : Except String Readings) (now : ℚ)
    (url : String) : MwResult :=
  if jsStartsWith url "/~/stats" then
    if !jsTruthyStr username && !allowPublicAccess then ⟨[], false, none⟩
    else if url = "/~/stats/api" then
      match metrics with
      | .ok r =>
          ⟨[.head 200 "application/json", .body (.json (snapshotJson now r))], true, none⟩
      | .error e =>
          ⟨[.head 500 "application/json", .body (.json (errorEnvelope e))], true, none⟩
    else if url = "/~/stats" ∨ url = "/~/stats/" then
      serveFile fs dirname none
    else if jsStartsWith url "/~/stats/" then
      if jsSubstring url 9 = "" then ⟨[], true, none⟩
      else serveFile fs dirname (some (pathJoin (pathJoin dirname "public") (jsSubstring url 9)))
    else ⟨[], true, none⟩
  else ⟨[], false, none⟩

/-- Fuel-driven integer logarithm base 1024, the exact value of
Math.floor(Math.log(bytes) / Math.log(1024)) for the magnitudes the
dashboard formats (double rounding of the log quotient is not modelled). -/
def ilog1024Fuel : ℕ → ℕ → ℕ
  | 0, _ => 0
  | fuel + 1, n => if n < 1024 then 0 else ilog1024Fuel fuel (n / 1024) + 1

/-- The byte formatter of main.js lines 54-60.  The expression
parseFloat((bytes / Math.pow(k, i)).toFixed(1)) + " " + sizes[i] rounds the
scaled value half-up to one decimal (the toFixed rule picks the larger
integer on a tie) and then prints it as a number, which drops a zero
fraction; an index past the sizes array prints the JavaScript undefined.
The rounding and the printing are carried out exactly on naturals:
n10 is the scaled value times ten, rounded half-up. -/
def formatBytes (bytes : ℕ) : String :=
  if bytes = 0 then "0 B"
  else
    let i := ilog1024Fuel bytes bytes
    let p := 1024 ^ i
    let n10 := (20 * bytes + p) / (2 * p)
    let whole := n10 / 10
    let frac := n10 % 10
    (if frac = 0 then toString whole else toString whole ++ "." ++ toString frac)
      ++ " " ++ (["B", "KB", "MB", "GB", "TB"].getD i "undefined")

/-- One appended chart point: the two percentages and the clock label of
main.js lines 70-75. -/
structure ChartPoint where
  cpu : ℚ
  mem : ℚ
  label : String
deriving DecidableEq

/-- The three parallel module-level arrays of main.js line 2. -/
structure ChartState where
  cpuData : List ℚ
  memoryData : List ℚ
  timeLabels : List String
deriving DecidableEq

/-- The capacity constant of main.js line 3. -/
def maxDataPoints : ℕ := 20

/-- One call of updateCharts (main.js lines 69-87): push the new point on
all three arrays, then if the cpu array holds more than maxDataPoints
entries shift the oldest entry off all three. -/
def updateCharts (s : ChartState) (p : ChartPoint) : ChartState :=
  let s1 : ChartState := ⟨s.cpuData ++ [p.cpu], s.memoryData ++ [p.mem], s.timeLabels ++ [p.label]⟩
  if s1.cpuData.length > maxDataPoints then
    ⟨s1.cpuData.tail, s1.memoryData.tail, s1.timeLabels.tail⟩
  else s1

/-- The chart state after a sequence of appends, starting from the empty
arrays of a fresh page. -/
def runCharts (ps : List ChartPoint) : ChartState :=
  ps.foldl updateCharts ⟨[], [], []⟩

/-- The window a capped series retains: all but the oldest overflow. -/
def trimTo {α : Type} (l : List α) : List α :=
  l.drop (l.length - maxDataPoints)

/-- A disk with no files at all. -/
def fsEmpty : Filesystem := fun _ => FileState.absent

/-- A disk holding one file outside the public directory of the plugin
directory /plug, namely the plugin source itself. -/
def secretFs : Filesystem := fun p =>
  if p = "/plug/plugin.js" then FileState.present (Except.ok "SECRET") else FileState.absent

/-- A disk where /plug/public/css exists but reading it fails, as for a
directory (EISDIR) or an unreadable file. -/
def dirFs : Filesystem := fun p =>
  if p = "/plug/public/css" then
    FileState.present (Except.error "EISDIR: illegal operation on a directory, read")
  else FileState.absent

/-- A cpu reading with every field absent. -/
def cpu0 : CpuReading := ⟨.undef, .undef, .undef, none⟩

/-- A memory reading with every field absent. -/
def mem0 : MemReading := ⟨.undef, .undef, .undef, .undef⟩

/-- A temperature reading with every sensor absent. -/
def temp0 : TempReading := ⟨.undef, none, .undef⟩

/-- An os reading with every field absent. -/
def os0 : OsReading := ⟨none, none, none, none, none⟩

/-- A time reading with the uptime absent. -/
def time0 : TimeReading := ⟨.undef⟩

/-- Readings where every source reported nothing usable. -/
def baseReadings : Readings := ⟨cpu0, mem0, none, temp0, none, os0, time0⟩

/-- A temperature reading whose main and max sensors report exactly 0. -/
def tempZero : TempReading := ⟨.num 0, some [], .num 0⟩

/-- Readings as baseReadings but with the zero temperature reading. -/
def readingsTempZero : Readings := ⟨cpu0, mem0, none, tempZero, none, os0, time0⟩

/-- Readings as baseReadings but with an empty-cores temperature reading
whose sensors are absent. -/
def readingsTempAbsent : Readings := ⟨cpu0, mem0, none, ⟨.undef, some [], .undef⟩, none, os0, time0⟩

/-- Readings whose memory reading has a truthy total and an absent used
field, so the usage division yields NaN. -/
def readingsMemNaN : Readings := ⟨cpu0, ⟨.num 8, .undef, .undef, .undef⟩, none, temp0, none, os0, time0⟩

/-- Readings whose memory reading is 50 bytes used of 100 total. -/
def readingsMemHalf : Readings := ⟨cpu0, ⟨.num 100, .num 50, .num 50, .num 50⟩, none, temp0, none, os0, time0⟩

/-- A resolved metrics outcome for branches that ignore it. -/
def mOk : Except String Readings := Except.ok baseReadings

/-- Twenty-five concrete chart points. -/
def pts25 : List ChartPoint :=
  (List.range 25).map (fun i => ⟨(i : ℚ), (i : ℚ) + 1, toString i⟩)

/-- Tests that a JSON value is a number. -/
def isNumJ : Json → Bool
  | .num _ => true
  | _ => false

/-- Tests that a JSON value is a string. -/
def isStrJ : Json → Bool
  | .str _ => true
  | _ => false

/-- Tests that a JSON value is a number or null. -/
def numOrNullJ : Json → Bool
  | .num _ => true
  | .null => true
  | _ => false

/-- Shape of the cpu member: exactly the four numeric fields. -/
def cpuShape : Json → Bool
  | .obj [("load", a), ("loadUser", b), ("loadSystem", c), ("cores", d)] =>
      isNumJ a && isNumJ b && isNumJ c && isNumJ d
  | _ => false

/-- Shape of the memory member: four numeric fields and a usage that is a
number or null. -/
def memShape : Json → Bool
  | .obj [("total", a), ("used", b), ("free", c), ("available", d), ("usage", e)] =>
      isNumJ a && isNumJ b && isNumJ c && isNumJ d && numOrNullJ e
  | _ => false

/-- Shape of the disk member: null, or a fully populated object. -/
def diskShape : Json → Bool
  | .null => true
  | .obj [("total", a), ("used", b), ("available", c), ("usage", d), ("filesystem", e)] =>
      isNumJ a && isNumJ b && isNumJ c && numOrNullJ d && isStrJ e
  | _ => false

/-- Shape of the temperature member: always an object whose main and max
are a number or null and whose cores member is an array of numbers. -/
def tempShape : Json → Bool
  | .obj [("main", m), ("cores", .arr cs), ("max", x)] =>
      numOrNullJ m && cs.all isNumJ && numOrNullJ x
  | _ => false

/-- Shape of the network member: null, or a fully populated object. -/
def netShape : Json → Bool
  | .null => true
  | .obj [("interface", i), ("rx_bytes", a), ("tx_bytes", b), ("rx_sec", c), ("tx_sec", d)] =>
      isStrJ i && isNumJ a && isNumJ b && isNumJ c && isNumJ d
  | _ => false

/-- Shape of the system member: five strings and a numeric uptime. -/
def sysShape : Json → Bool
  | .obj [("platform", a), ("distro", b), ("release", c), ("arch", d), ("hostname", e), ("uptime", f)] =>
      isStrJ a && isStrJ b && isStrJ c && isStrJ d && isStrJ e && isNumJ f
  | _ => false

/-- Shape of a whole snapshot: the seven declared keys in declaration
order, with the member shapes above; no key is ever absent. -/
def snapshotShape : Json → Bool
  | .obj [("timestamp", ts), ("cpu", c), ("memory", m), ("disk", d),
          ("temperature", t), ("network", n), ("system", s)] =>
      isNumJ ts && cpuShape c && memShape m && diskShape d && tempShape t && netShape n && sysShape s
  | _ => false

/-- Urls that match the reserved prefix but none of the handled branches:
they begin with /~/stats but not with /~/stats/ and are not the prefix
root itself.  These are exactly the urls the final return true of
plugin.js line 202 accepts without writing anything. -/
def isFallbackUrl (url : String) : Bool :=
  jsStartsWith url "/~/stats" && !jsStartsWith url "/~/stats/" && !(url == "/~/stats")

theorem maxDataPoints_eq : maxDataPoints = 20 := rfl

theorem trimTo_length {α : Type} (l : List α) : (trimTo l).length = min l.length maxDataPoints := by
  unfold trimTo
  rw [List.length_drop, maxDataPoints_eq]
  omega

theorem tail_append_singleton_of_ne_nil {α : Type} (l : List α) (x : α) (h : l ≠ []) :
    (l ++ [x]).tail = l.tail ++ [x] := by
  cases l with
  | nil => exact absurd rfl h
  | cons a t => rfl

theorem trim_step_ge {α : Type} (l : List α) (x : α) (h : maxDataPoints ≤ l.length) :
    (trimTo l ++ [x]).tail = trimTo (l ++ [x]) := by
  rw [maxDataPoints_eq] at h
  have hlen : (trimTo l).length = min l.length maxDataPoints := trimTo_length l
  rw [maxDataPoints_eq] at hlen
  have hpos : 0 < (trimTo l).length := by omega
  have hne : trimTo l ≠ [] := List.ne_nil_of_length_pos hpos
  rw [tail_append_singleton_of_ne_nil _ _ hne]
  unfold trimTo
  rw [List.tail_drop]
  rw [List.drop_append_of_le_length
    (by rw [List.length_append, List.length_singleton, maxDataPoints_eq]; omega)]
  have hidx : l.length - maxDataPoints + 1 = (l ++ [x]).length - maxDataPoints := by
    rw [List.length_append, List.length_singleton, maxDataPoints_eq]
    omega
  rw [hidx]

theorem trim_step_lt {α : Type} (l : List α) (x : α) (h : l.length < maxDataPoints) :
    trimTo l ++ [x] = trimTo (l ++ [x]) := by
  rw [maxDataPoints_eq] at h
  unfold trimTo
  rw [List.length_append, List.length_singleton]
  rw [Nat.sub_eq_zero_of_le (by rw [maxDataPoints_eq]; omega)]
  rw [Nat.sub_eq_zero_of_le (by rw [maxDataPoints_eq]; omega)]
  simp

theorem updateCharts_unfold (s : ChartState) (p : ChartPoint) :
    updateCharts s p =
      if (s.cpuData ++ [p.cpu]).length > maxDataPoints then
        ⟨(s.cpuData ++ [p.cpu]).tail, (s.memoryData ++ [p.mem]).tail, (s.timeLabels ++ [p.label]).tail⟩
      else ⟨s.cpuData ++ [p.cpu], s.memoryData ++ [p.mem], s.timeLabels ++ [p.label]⟩ := rfl

/-- The rolling window invariant of the chart series: after any sequence
of appends from the empty page state, each of the three arrays holds the
newest entries, all overflow beyond maxDataPoints dropped from the front. -/
theorem runCharts_eq (ps : List ChartPoint) :
    runCharts ps = ⟨trimTo (ps.map ChartPoint.cpu), trimTo (ps.map ChartPoint.mem),
      trimTo (ps.map ChartPoint.label)⟩ := by
  induction ps using List.reverseRecOn with
  | nil => rfl
  | append_singleton qs p ih =>
    have hfold : runCharts (qs ++ [p]) = updateCharts (runCharts qs) p := by
      simp [runCharts, List.foldl_append]
    rw [hfold, ih, updateCharts_unfold]
    simp only [List.map_append, List.map_cons, List.map_nil]
    have hA : (qs.map ChartPoint.cpu).length = qs.length := by simp
    have hB : (qs.map ChartPoint.mem).length = qs.length := by simp
    have hC : (qs.map ChartPoint.label).length = qs.length := by simp
    have hlen3 : (trimTo (qs.map ChartPoint.cpu) ++ [p.cpu]).length
        = min qs.length maxDataPoints + 1 := by
      rw [List.length_append, List.length_singleton, trimTo_length, hA]
    by_cases h20 : maxDataPoints ≤ qs.length
    · rw [if_pos (by rw [hlen3, maxDataPoints_eq] at *; omega)]
      rw [ChartState.mk.injEq]
      refine ⟨trim_step_ge _ _ ?_, trim_step_ge _ _ ?_, trim_step_ge _ _ ?_⟩ <;> omega
    · rw [if_neg (by rw [hlen3, maxDataPoints_eq] at *; omega)]
      rw [ChartState.mk.injEq]
      refine ⟨trim_step_lt _ _ ?_, trim_step_lt _ _ ?_, trim_step_lt _ _ ?_⟩ <;> omega

/-- On a reliable disk, serveFile always writes exactly one complete
response, returns true and lets no exception escape. -/
theorem serveFile_reliable (fs : Filesystem) (dirname : String) (fp : Option String)
    (hfs : fsReliable fs) :
    isOneResponse (serveFile fs dirname fp).events = true
    ∧ (serveFile fs dirname fp).handled = true
    ∧ (serveFile fs dirname fp).exc = none := by
  rcases hread : fs (fullPathOf dirname fp) with _ | r
  · simp [serveFile, hread, isOneResponse]
  · cases r with
    | error e => exact absurd hread (hfs _ e)
    | ok content =>
      by_cases himg : jsStartsWith (ctOf (fullPathOf dirname fp)) "image/"
      · simp [serveFile, hread, himg, isOneResponse]
      · simp [serveFile, hread, himg, isOneResponse]

theorem toJson_numOrNull (v : JVal) : numOrNullJ v.toJson = true := by
  cases v <;> simp [JVal.toJson, numOrNullJ]

theorem orNullJson_numOrNull (v : JVal) : numOrNullJ v.orNullJson = true := by
  cases v with
  | num q =>
    simp only [JVal.orNullJson]
    split <;> simp [numOrNullJ]
  | undef => simp [JVal.orNullJson, numOrNullJ]
  | nan => simp [JVal.orNullJson, numOrNullJ]

theorem all_num_map (l : List ℚ) : (l.map Json.num).all isNumJ = true := by
  induction l with
  | nil => rfl
  | cons a t ih => simp [isNumJ, ih]

theorem diskJson_shape (d : Option (List DiskFs)) : diskShape (diskJson d) = true := by
  rcases d with _ | ⟨_ | ⟨e, rest⟩⟩
  · rfl
  · rfl
  · simp [diskJson, diskShape, isNumJ, isStrJ, toJson_numOrNull]

theorem netJson_shape (n : Option (List NetIface)) : netShape (netJson n) = true := by
  rcases n with _ | ⟨_ | ⟨e, rest⟩⟩
  · rfl
  · rfl
  · simp [netJson, netShape, isNumJ, isStrJ]

/-- C1: on an accepted request to the api endpoint, whenever any of the
seven concurrent reads rejects, the combined outcome is a rejection whose
message is the message of one of the rejecting reads, and the middleware
writes exactly one response: a 500 whose JSON body holds the fixed error
label and a details key equal to that message; no 200 is written. -/
theorem c1_metrics_failure :
    (∀ (fs : Filesystem) (dirname : String) (cfg : Bool) (user : Option String)
        (metrics : Except String Readings) (now : ℚ) (msg : String),
        (!jsTruthyStr user && !cfg) = false →
        metrics = .error msg →
        middleware fs dirname cfg user metrics now "/~/stats/api" =
          ⟨[.head 500 "application/json", .body (.json (errorEnvelope msg))], true, none⟩)
  ∧ (∀ (c : Except String CpuReading) (m : Except String MemReading)
        (d : Except String (Option (List DiskFs))) (t : Except String TempReading)
        (n : Except String (Option (List NetIface))) (o : Except String OsReading)
        (u : Except String TimeReading),
        isErr7 c m d t n o u = true →
        ∃ msg, combineAll c m d t n o u = .error msg ∧ msg ∈ errMsgs7 c m d t n o u) := by
  constructor
  · intro fs dirname cfg user metrics now msg hauth hm
    subst hm
    simp +decide [middleware, hauth]
  · intro c m d t n o u h
    cases c with
    | error e => exact ⟨e, rfl, by simp [errMsgs7, errList]⟩
    | ok rc =>
      cases m with
      | error e => exact ⟨e, rfl, by simp [errMsgs7, errList]⟩
      | ok rm =>
        cases d with
        | error e => exact ⟨e, rfl, by simp [errMsgs7, errList]⟩
        | ok rd =>
          cases t with
          | error e => exact ⟨e, rfl, by simp [errMsgs7, errList]⟩
          | ok rt =>
            cases n with
            | error e => exact ⟨e, rfl, by simp [errMsgs7, errList]⟩
            | ok rn =>
              cases o with
              | error e => exact ⟨e, rfl, by simp [errMsgs7, errList]⟩
              | ok ro =>
                cases u with
                | error e => exact ⟨e, rfl, by simp [errMsgs7, errList]⟩
                | ok ru => simp [isErr7, isErr] at h

/-- C1 witness: with the cpu read rejecting with message boom and the six
others resolving, the endpoint writes the single 500 error envelope. -/
theorem c1_witness :
    middleware fsEmpty "/plug" true (some "admin")
        (combineAll (.error "boom") (.ok mem0) (.ok none) (.ok temp0) (.ok none) (.ok os0) (.ok time0))
        0 "/~/stats/api" =
      ⟨[.head 500 "application/json", .body (.json (errorEnvelope "boom"))], true, none⟩ :=
  c1_metrics_failure.1 fsEmpty "/plug" true (some "admin") _ 0 "boom" (by decide) rfl

/-- C2 counterexample: with a truthy memory total and an absent used
field, the division yields NaN and the serialized memory.usage is null,
not the 0 the claim promises for every numeric field. -/
theorem c2_cex :
    ((snapshotJson 0 readingsMemNaN).get "memory").bind (fun j => j.get "usage") = some Json.null
    ∧ Json.null ≠ Json.num 0 :=
  ⟨rfl, fun h => Json.noConfusion h⟩

/-- C2 amended: for every combination of readings the snapshot has the
stable declared shape (cpu, memory, system objects always present and
non-null, disk and network a fully populated object or null, temperature
always present with main and max a value or null and cores an array), and
on entirely absent readings every numeric field is 0, every string field
is Unknown, and the optional members are null; the one exception to
defaulting is that the derived usage fields are a number or null, null
exactly when the division is NaN. -/
theorem c2_snapshot_shape :
    (∀ (now : ℚ) (r : Readings), snapshotShape (snapshotJson now r) = true)
  ∧ (∀ now : ℚ, snapshotJson now baseReadings = Json.obj [
      ("timestamp", Json.num now),
      ("cpu", Json.obj [("load", Json.num 0), ("loadUser", Json.num 0),
        ("loadSystem", Json.num 0), ("cores", Json.num ((0 : ℕ) : ℚ))]),
      ("memory", Json.obj [("total", Json.num 0), ("used", Json.num 0), ("free", Json.num 0),
        ("available", Json.num 0), ("usage", Json.num 0)]),
      ("disk", Json.null),
      ("temperature", Json.obj [("main", Json.null), ("cores", Json.arr []), ("max", Json.null)]),
      ("network", Json.null),
      ("system", Json.obj [("platform", Json.str "Unknown"), ("distro", Json.str "Unknown"),
        ("release", Json.str "Unknown"), ("arch", Json.str "Unknown"),
        ("hostname", Json.str "Unknown"), ("uptime", Json.num 0)])]) := by
  constructor
  · intro now r
    simp [snapshotJson, snapshotShape, cpuShape, memShape, tempShape, sysShape,
      isNumJ, isStrJ, toJson_numOrNull, orNullJson_numOrNull, all_num_map,
      diskJson_shape, netJson_shape]
  · intro now
    rfl

/-- C3 counterexample: the url /~/statsx matches the reserved prefix but
none of the handled branches; the middleware accepts responsibility for it
(returns true) yet writes no response at all, and no diagnostic 200
exists, so the unmatched-suffix branch is reachable and silent. -/
theorem c3_cex :
    (middleware fsEmpty "/plug" true (some "admin") mOk 0 "/~/statsx").handled = true
    ∧ (middleware fsEmpty "/plug" true (some "admin") mOk 0 "/~/statsx").events = [] :=
  ⟨rfl, rfl⟩

theorem isLeadOf_append (p s : List Char) (h : isLeadOf p s = true) : ∃ r, s = p ++ r := by
  induction p generalizing s with
  | nil => exact ⟨s, rfl⟩
  | cons a ps ih =>
    cases s with
    | nil => simp [isLeadOf] at h
    | cons c cs =>
      simp only [isLeadOf, Bool.and_eq_true, beq_iff_eq] at h
      obtain ⟨rfl, h2⟩ := h
      obtain ⟨r, rfl⟩ := ih cs h2
      exact ⟨r, rfl⟩

/-- A url that begins with /~/stats/ and whose substring from index 9 is
empty is the prefix root with slash itself, so the inner empty-suffix
branch of the file case is unreachable (that url was already handled by
the root branch). -/
theorem url_of_drop9_empty (url : String) (h5 : jsStartsWith url "/~/stats/" = true)
    (h6 : jsSubstring url 9 = "") : url = "/~/stats/" := by
  obtain ⟨r, hr⟩ := isLeadOf_append _ _ h5
  have hdrop : url.data.drop 9 = [] := congrArg String.data h6
  rw [hr] at hdrop
  rw [show (9 : ℕ) = ("/~/stats/".data).length from by decide, List.drop_left] at hdrop
  subst hdrop
  have hd : url.data = "/~/stats/".data := by rw [hr, List.append_nil]
  exact congrArg String.mk hd

/-- C3 amended: provided no present file fails to read, the middleware
either defers having written nothing, or accepts responsibility; every
accepted request whose url is not a fallback url (so the api, root and
file branches) receives exactly one complete response, every accepted
request whose url is a fallback url receives no write at all, and no
exception escapes.  Silence is thereby confined to the reachable
unmatched-suffix branch of plugin.js line 202. -/
theorem c3_amended (fs : Filesystem) (dirname : String) (cfg : Bool) (user : Option String)
    (metrics : Except String Readings) (now : ℚ) (url : String)
    (hfs : fsReliable fs) :
    ((middleware fs dirname cfg user metrics now url).handled = false →
      (middleware fs dirname cfg user metrics now url).events = [])
  ∧ ((middleware fs dirname cfg user metrics now url).handled = true →
      isFallbackUrl url = false →
      isOneResponse (middleware fs dirname cfg user metrics now url).events = true)
  ∧ ((middleware fs dirname cfg user metrics now url).handled = true →
      isFallbackUrl url = true →
      (middleware fs dirname cfg user metrics now url).events = [])
  ∧ (middleware fs dirname cfg user metrics now url).exc = none := by
  by_cases h1 : jsStartsWith url "/~/stats"
  · by_cases h2 : (!jsTruthyStr user && !cfg) = true
    · simp [middleware, h1, h2]
    · have h2f : (!jsTruthyStr user && !cfg) = false := by
        revert h2
        cases (!jsTruthyStr user && !cfg) <;> simp
      by_cases h3 : url = "/~/stats/api"
      · subst h3
        rcases metrics with e | r <;> simp +decide [middleware, h2f, isOneResponse, isFallbackUrl]
      · by_cases h4 : url = "/~/stats" ∨ url = "/~/stats/"
        · have hs := serveFile_reliable fs dirname none hfs
          have hfb : isFallbackUrl url = false := by
            rcases h4 with rfl | rfl <;> decide
          simp only [middleware, h1, h2f, h3, h4, if_true, if_false, Bool.false_eq_true,
            ite_true, ite_false, if_neg h3, if_pos h4]
          simp [hs.1, hs.2.1, hs.2.2, hfb]
        · by_cases h5 : jsStartsWith url "/~/stats/"
          · by_cases h6 : jsSubstring url 9 = ""
            · exact absurd (url_of_drop9_empty url h5 h6) (fun he => h4 (Or.inr he))
            · have hs := serveFile_reliable fs dirname
                (some (pathJoin (pathJoin dirname "public") (jsSubstring url 9))) hfs
              have hfb : isFallbackUrl url = false := by
                simp [isFallbackUrl, h5]
              simp only [middleware, h1, h2f, h3, h4, h5, h6]
              simp [hs.1, hs.2.1, hs.2.2, hfb]
          · have hfb : isFallbackUrl url = true := by
              have hne : (url == "/~/stats") = false := by
                have : url ≠ "/~/stats" := fun he => h4 (Or.inl he)
                simp [this]
              simp [isFallbackUrl, h1, h5, hne]
            simp [middleware, h1, h2f, h3, h4, h5, hfb]
  · simp [middleware, h1]

/-- C3 witness: the empty disk is reliable; on it the accepted api
request (not a fallback url) gets exactly one complete response, and the
accepted fallback url /~/statsx gets no write. -/
theorem c3_witness :
    fsReliable fsEmpty
    ∧ isOneResponse (middleware fsEmpty "/plug" true (some "admin") mOk 0 "/~/stats/api").events = true
    ∧ (middleware fsEmpty "/plug" true (some "admin") mOk 0 "/~/statsx").events = [] := by
  have hrel : fsReliable fsEmpty := fun p e h => FileState.noConfusion h
  refine ⟨hrel, ?_, ?_⟩
  · exact (c3_amended fsEmpty "/plug" true (some "admin") mOk 0 "/~/stats/api" hrel).2.1
      rfl (by decide)
  · exact (c3_amended fsEmpty "/plug" true (some "admin") mOk 0 "/~/statsx" hrel).2.2.1
      rfl (by decide)

/-- C4: for a memory reading with numeric used and total where
0 ≤ used ≤ total, the serialized memory.usage equals used over total times
100 when total is nonzero and 0 when total is 0, and that value lies
between 0 and 100. -/
theorem c4_mem_usage (now : ℚ) (r : Readings) (u t : ℚ)
    (hu : r.mem.used = .num u) (ht : r.mem.total = .num t)
    (h0u : 0 ≤ u) (hut : u ≤ t) :
    ((snapshotJson now r).get "memory").bind (fun j => j.get "usage")
      = some (Json.num (if t = 0 then 0 else u / t * 100))
    ∧ (0:ℚ) ≤ (if t = 0 then 0 else u / t * 100)
    ∧ (if t = 0 then 0 else u / t * 100) ≤ 100 := by
  have hval : ((snapshotJson now r).get "memory").bind (fun j => j.get "usage")
      = some ((jsUsage r.mem.used r.mem.total).toJson) := by
    simp +decide [snapshotJson, Json.get, lookupKey]
  refine ⟨?_, ?_, ?_⟩
  · rw [hval, hu, ht]
    by_cases h : t = 0
    · simp [jsUsage, JVal.falsy, JVal.toJson, h]
    · simp [jsUsage, JVal.falsy, JVal.div, JVal.mul, JVal.toJson, h]
  · by_cases h : t = 0
    · simp [h]
    · have ht0 : 0 < t := lt_of_le_of_ne (le_trans h0u hut) (Ne.symm h)
      simp only [h, if_false]
      positivity
  · by_cases h : t = 0
    · simp [h]
    · have ht0 : 0 < t := lt_of_le_of_ne (le_trans h0u hut) (Ne.symm h)
      simp only [h, if_false]
      have hdiv : u / t ≤ 1 := (div_le_one ht0).mpr hut
      nlinarith

/-- C4 witness: a memory reading of 50 used out of 100 total. -/
theorem c4_witness :
    ((snapshotJson 0 readingsMemHalf).get "memory").bind (fun j => j.get "usage")
      = some (Json.num (if (100:ℚ) = 0 then 0 else 50 / 100 * 100))
    ∧ (0:ℚ) ≤ (if (100:ℚ) = 0 then 0 else 50 / 100 * 100)
    ∧ (if (100:ℚ) = 0 then (0:ℚ) else 50 / 100 * 100) ≤ 100 :=
  c4_mem_usage 0 readingsMemHalf 50 100 rfl rfl (by norm_num) (by norm_num)

/-- C5: any request whose url does not carry the reserved prefix is
deferred to the host with no write, and so is any request under the prefix
with a falsy username while public access is disallowed. -/
theorem c5_defers :
    (∀ (fs : Filesystem) (dirname : String) (cfg : Bool) (user : Option String)
        (metrics : Except String Readings) (now : ℚ) (url : String),
        jsStartsWith url "/~/stats" = false →
        middleware fs dirname cfg user metrics now url = ⟨[], false, none⟩)
  ∧ (∀ (fs : Filesystem) (dirname : String) (user : Option String)
        (metrics : Except String Readings) (now : ℚ) (url : String),
        jsStartsWith url "/~/stats" = true →
        jsTruthyStr user = false →
        middleware fs dirname false user metrics now url = ⟨[], false, none⟩) := by
  constructor
  · intro fs dirname cfg user metrics now url h
    simp [middleware, h]
  · intro fs dirname user metrics now url h1 h2
    simp [middleware, h1, h2]

/-- C5 witness: a request outside the prefix and an anonymous request
under it, with public access disallowed, are both deferred silently. -/
theorem c5_witness :
    middleware fsEmpty "/plug" false none mOk 0 "/other/path" = ⟨[], false, none⟩
    ∧ middleware fsEmpty "/plug" false none mOk 0 "/~/stats/api" = ⟨[], false, none⟩ :=
  ⟨c5_defers.1 fsEmpty "/plug" false none mOk 0 "/other/path" (by decide),
   c5_defers.2 fsEmpty "/plug" none mOk 0 "/~/stats/api" (by decide) (by decide)⟩

/-- C6: evaluation at the failing input.  When the requested path exists
but its read fails (for example a directory, EISDIR), serveFile has
already written the 200 head, so the catch branch throws
ERR_HTTP_HEADERS_SENT and the exception escapes with the response never
ended; no 500 is written.  The missing-file path behaves as claimed: one
404 naming the file. -/
theorem c6_read_failure :
    serveFile dirFs "/plug" (some "/plug/public/css")
      = ⟨[.head 200 "text/plain"], false, some "ERR_HTTP_HEADERS_SENT"⟩
    ∧ serveFile dirFs "/plug" (some "/plug/public/missing.css")
      = ⟨[.head 404 "text/plain", .body (.text "File not found: missing.css")], true, none⟩ :=
  ⟨rfl, rfl⟩

/-- C7 counterexample: the source prints parseFloat of the fixed string,
which drops the zero fraction, so 1024 bytes format as 1 KB, not the
1.0 KB the claim states. -/
theorem c7_cex : formatBytes 1024 ≠ "1.0 KB" := by decide

/-- C7 amended: formatBytes maps 0 to 0 B, 1024 to 1 KB (the zero
fraction is dropped by the parseFloat round trip), and 1536 to 1.5 KB. -/
theorem c7_amended :
    formatBytes 0 = "0 B" ∧ formatBytes 1024 = "1 KB" ∧ formatBytes 1536 = "1.5 KB" := by
  refine ⟨by decide, by decide, by decide⟩

/-- C8: starting from the empty page state, after any 25 appends each of
the three parallel arrays has length exactly 20 and retains the 6th
through 25th points in insertion order, and after any sequence of appends
whatsoever the three arrays have equal lengths (the shift drops the oldest
entry of all three in lockstep). -/
theorem c8_chart_window (ps : List ChartPoint) (h : ps.length = 25) :
    (runCharts ps).cpuData.length = 20
    ∧ (runCharts ps).memoryData.length = 20
    ∧ (runCharts ps).timeLabels.length = 20
    ∧ (runCharts ps).cpuData = (ps.map ChartPoint.cpu).drop 5
    ∧ (runCharts ps).memoryData = (ps.map ChartPoint.mem).drop 5
    ∧ (runCharts ps).timeLabels = (ps.map ChartPoint.label).drop 5
    ∧ ∀ qs : List ChartPoint,
        (runCharts qs).cpuData.length = (runCharts qs).memoryData.length
        ∧ (runCharts qs).memoryData.length = (runCharts qs).timeLabels.length := by
  rw [runCharts_eq ps]
  refine ⟨?_, ?_, ?_, ?_, ?_, ?_, ?_⟩
  · rw [trimTo_length]
    simp [h, maxDataPoints_eq]
  · rw [trimTo_length]
    simp [h, maxDataPoints_eq]
  · rw [trimTo_length]
    simp [h, maxDataPoints_eq]
  · unfold trimTo
    simp [h, maxDataPoints_eq]
  · unfold trimTo
    simp [h, maxDataPoints_eq]
  · unfold trimTo
    simp [h, maxDataPoints_eq]
  · intro qs
    rw [runCharts_eq qs]
    simp [trimTo_length]

/-- C8 witness: twenty-five concrete points. -/
theorem c8_witness :
    (runCharts pts25).cpuData.length = 20
    ∧ (runCharts pts25).cpuData = (pts25.map ChartPoint.cpu).drop 5 :=
  ⟨(c8_chart_window pts25 (by decide)).1, (c8_chart_window pts25 (by decide)).2.2.2.1⟩

/-- C9: every accepted request under the file branch hands the static
responder the plain join of the public directory with the raw url suffix,
with no containment check. -/
theorem c9_raw_join (fs : Filesystem) (dirname : String) (cfg : Bool) (user : Option String)
    (metrics : Except String Readings) (now : ℚ) (url : String)
    (h1 : jsStartsWith url "/~/stats" = true)
    (h2 : (!jsTruthyStr user && !cfg) = false)
    (h3 : url ≠ "/~/stats/api")
    (h4 : url ≠ "/~/stats")
    (h5 : url ≠ "/~/stats/")
    (h6 : jsStartsWith url "/~/stats/" = true)
    (h7 : jsSubstring url 9 ≠ "") :
    middleware fs dirname cfg user metrics now url =
      serveFile fs dirname (some (pathJoin (pathJoin dirname "public") (jsSubstring url 9))) := by
  simp [middleware, h1, h2, h3, h4, h5, h6, h7]

/-- C9 witness: the suffix ../plugin.js joins to /plug/plugin.js, which
lies outside the public directory, and the file there is served with a
200. -/
theorem c9_witness :
    middleware secretFs "/plug" false (some "admin") mOk 0 "/~/stats/../plugin.js" =
      ⟨[.head 200 "application/javascript", .body (.text "SECRET")], true, none⟩
    ∧ jsStartsWith (pathJoin (pathJoin "/plug" "public") (jsSubstring "/~/stats/../plugin.js" 9))
        "/plug/public" = false := by
  constructor
  · rw [c9_raw_join secretFs "/plug" false (some "admin") mOk 0 "/~/stats/../plugin.js"
      (by decide) (by decide) (by decide) (by decide) (by decide) (by decide) (by decide)]
    rfl
  · decide

/-- C10: a temperature reading whose main and max sensors report exactly
0 assembles to the very same snapshot as a reading with absent sensors;
both serialize main and max as null. -/
theorem c10_zero_temp :
    snapshotJson 0 readingsTempZero = snapshotJson 0 readingsTempAbsent
    ∧ (snapshotJson 0 readingsTempZero).get "temperature"
        = some (Json.obj [("main", Json.null), ("cores", Json.arr []), ("max", Json.null)]) :=
  ⟨rfl, rfl⟩
